import Mathlib

/-!
Verification development for the KOPernicus research-agent orchestration core.

The Python sources are shallowly embedded as Lean definitions:

* LLM ("reasoning provider") calls are modelled as explicit oracle
  parameters of type `Except String _` (an exception raised inside the
  node corresponds to `.error`, a parsed structured output to `.ok`);
* external tool ("capability provider") invocations are modelled by
  outcome parameters, with an explicit trace of the invocations that
  actually reached the provider;
* Python dictionaries read with `.get` are modelled by structures with
  `Option` fields where a key may be absent;
* Python truthiness (`or`, `if x:`) on strings / lists is modelled
  explicitly (empty string and empty list are falsy);
* tool result payloads are modelled by their textual rendering
  (the Python code stringifies them before every use relevant here);
* wall-clock behaviour (the retry delay `asyncio.sleep(3)`) is not
  modelled; only the sequence and number of attempts is.

Each definition cites the source location it embeds.
-/

/-- Python argument values as far as the agent inspects them:
strings (`isinstance(arg_val, str)` checks), lists of strings
(the `curies` argument of `get_normalized_nodes`), anything else. -/
inductive ArgVal where
  | vstr (s : String)
  | vlist (l : List String)
  | vother
deriving DecidableEq, Repr

/-- A tool-call argument dict, as an association list. -/
abbrev Args := List (String × ArgVal)

/-- `tool_args.get(k)`. -/
def argGet (args : Args) (k : String) : Option ArgVal :=
  (args.find? (fun p => p.1 == k)).map (fun p => p.2)

/-- `tool_args.get(k)` followed by Python truthiness: only a non-empty
string survives (`if pred and ...`, `a or b` chains in the executor). -/
def argStrTruthy (args : Args) (k : String) : Option String :=
  match argGet args k with
  | some (ArgVal.vstr s) => if s = "" then none else some s
  | _ => none

/-- Python `a or b` on an optional string: `b` when `a` is `None` or empty. -/
def pyOrStr (a : Option String) (b : String) : String :=
  match a with
  | some s => if s = "" then b else s
  | none => b

/-- Contiguous-sublist test on character lists (Python `needle in hay`
on strings). -/
def containsSub (needle : List Char) : List Char → Bool
  | [] => needle.isEmpty
  | h :: t => needle.isPrefixOf (h :: t) || containsSub needle t

/-- Python `needle in hay` on strings. -/
def strContains (hay needle : String) : Bool :=
  containsSub needle.toList hay.toList

/-- One raw evidence dict as produced by `ExecutorNode.__call__`
(src/src/kopernicus_agent/nodes.py).  Keys that some paths omit are
`Option`; `data` is the textual rendering of the payload. -/
structure EvidenceItem where
  step : String
  tool : Option String
  args : Option Args
  status : String
  error_type : Option String
  data : Option String
deriving DecidableEq, Repr

/- ------------------------------------------------------------------ -/
/- utils.py                                                            -/
/- ------------------------------------------------------------------ -/

/-- Python `evidence[-k:]` (`utils.py` line 12): the last `k` elements,
except that `k = 0` denotes the whole list (`xs[-0:] == xs`). -/
def pySliceLast (k : Nat) (l : List EvidenceItem) : List EvidenceItem :=
  if k = 0 then l else l.drop (l.length - k)

/-- The accumulation loop of `prune_evidence` (utils.py lines 14-22):
walk `successful + recent`, keep the first item of each `(step, tool)`
signature, stop as soon as `max_items` items are collected (the cap is
checked right after each append). -/
def pruneLoop (max_items : Nat) : List EvidenceItem →
    List (String × Option String) → List EvidenceItem → List EvidenceItem
  | [], _, acc => acc.reverse
  | e :: rest, seen, acc =>
    let sig := (e.step, e.tool)
    if seen.contains sig then
      pruneLoop max_items rest seen acc
    else
      let acc' := e :: acc
      if max_items ≤ acc'.length then acc'.reverse
      else pruneLoop max_items rest (sig :: seen) acc'

/-- `prune_evidence(evidence, max_items=20)` — utils.py lines 6-25. -/
def prune_evidence (evidence : List EvidenceItem) (max_items : Nat) :
    List EvidenceItem :=
  if evidence.length ≤ max_items then evidence
  else
    let successful := evidence.filter (fun e => e.status == "success")
    let recent := pySliceLast (max_items / 2) evidence
    pruneLoop max_items (successful ++ recent) [] []

/- ------------------------------------------------------------------ -/
/- The CURIE regex of ExecutorNode._auto_normalize                     -/
/- ------------------------------------------------------------------ -/

/-- Python regex `\w` on the (ASCII) strings of interest. -/
def isWordChar (c : Char) : Bool :=
  c.isAlpha || c.isDigit || c == '_'

/-- Character class `[A-Z0-9]` of the CURIE pattern. -/
def isCurieBodyChar (c : Char) : Bool :=
  c.isUpper || c.isDigit

/-- One attempt to match `\b([A-Z][A-Z0-9]+:\d+)\b`
(nodes.py line 991) at the head of `l`, the previous character being
`prev` (`none` at the start of the string).  Returns the matched token,
the last character of the match, and the remaining characters.
Greediness of `[A-Z0-9]+` / `\d+` against the literal `:` and the
trailing `\b` makes the match at a given position deterministic. -/
def curieMatch (prev : Option Char) (l : List Char) :
    Option (String × Char × List Char) :=
  let boundaryBefore :=
    match prev with
    | none => true
    | some p => !isWordChar p
  if !boundaryBefore then none
  else
    match l with
    | [] => none
    | c :: rest =>
      if !c.isUpper then none
      else
        let run := rest.takeWhile isCurieBodyChar
        let rest2 := rest.dropWhile isCurieBodyChar
        if run.isEmpty then none
        else
          match rest2 with
          | ':' :: rest3 =>
            let digits := rest3.takeWhile Char.isDigit
            let rest4 := rest3.dropWhile Char.isDigit
            if digits.isEmpty then none
            else
              let boundaryAfter :=
                match rest4 with
                | [] => true
                | d :: _ => !isWordChar d
              if !boundaryAfter then none
              else
                some (String.mk (c :: run ++ ':' :: digits),
                      digits.getLastD ':', rest4)
          | _ => none

/-- Left-to-right non-overlapping scan (`re.findall` semantics), with a
fuel argument bounding the number of scan positions. -/
def scanCuries : Nat → Option Char → List Char → List String
  | 0, _, _ => []
  | _ + 1, _, [] => []
  | n + 1, prev, c :: rest =>
    match curieMatch prev (c :: rest) with
    | some (tok, lastc, rest4) => tok :: scanCuries n (some lastc) rest4
    | none => scanCuries n (some c) rest

/-- `re.findall(r'\b([A-Z][A-Z0-9]+:\d+)\b', s)` — nodes.py line 991. -/
def findallCuries (s : String) : List String :=
  scanCuries s.length none s.toList

/-- The deduplicate-and-cap loop of `_auto_normalize`
(nodes.py lines 993-1000): keep first occurrences, break as soon as
`cap` identifiers are collected (the break is checked on every
iteration, after a possible append). -/
def dedupCapGo (cap : Nat) (cur : List String) : List String → List String
  | [] => cur
  | c :: rest =>
    let cur' := if cur.contains c then cur else cur ++ [c]
    if cap ≤ cur'.length then cur'
    else dedupCapGo cap cur' rest

/-- The extracted, deduplicated, capped-at-5 CURIE list of
`_auto_normalize`. -/
def dedupCap5 (l : List String) : List String :=
  dedupCapGo 5 [] l

/- ------------------------------------------------------------------ -/
/- ExecutorNode (nodes.py lines 807-1031)                              -/
/- ------------------------------------------------------------------ -/

/-- One entry of the `forbidden_continuations` list read by the
executor (dicts with `source` / `predicate` keys). -/
structure ForbiddenContinuation where
  source : String
  predicate : String
deriving DecidableEq, Repr

/-- The `hard_constraints` dict exactly as `ExecutorNode.__call__`
reads it (nodes.py lines 853-856; each key defaults to `[]`). -/
structure HardConstraintsD where
  forbidden_predicates : List String
  forbidden_entities : List String
  forbidden_continuations : List ForbiddenContinuation
deriving DecidableEq, Repr

/-- Python truthiness of an argument value (empty string and empty
list are falsy, any other modelled object truthy). -/
def pyTruthyArg : ArgVal → Bool
  | ArgVal.vstr s => !(s == "")
  | ArgVal.vlist l => !l.isEmpty
  | ArgVal.vother => true

/-- The first truthy value of a Python `a or b or c or ...` chain. -/
def firstTruthy : List (Option ArgVal) → Option ArgVal
  | [] => none
  | none :: rest => firstTruthy rest
  | some v :: rest => if pyTruthyArg v then some v else firstTruthy rest

/-- The `source` extraction chain of the executor (nodes.py lines
860-865): `tool_args.get("curie") or tool_args.get("source_node") or
tool_args.get("subject") or tool_args.get("source")` — Python `or`
stops at the first truthy value of any type; falsy values (absent
keys, empty strings) fall through. -/
def executorSource (args : Args) : Option ArgVal :=
  firstTruthy [argGet args "curie", argGet args "source_node",
               argGet args "subject", argGet args "source"]

/-- Verdict of the hard-constraint enforcement block. -/
inductive PolicyVerdict where
  | allow
  | reject (msg : String)
deriving DecidableEq, Repr

/-- Entity ban (nodes.py lines 891-898): the first string argument
value that lies in `forbidden_entities`, if any.  Applies to every
tool.  Quote characters of the Python message are elided. -/
def entityBanMsg (hc : HardConstraintsD) (args : Args) : Option String :=
  (args.find? (fun p =>
    match p.2 with
    | ArgVal.vstr s => hc.forbidden_entities.contains s
    | _ => false)).map (fun p =>
      match p.2 with
      | ArgVal.vstr s =>
        "Action blocked: The entity " ++ s ++ " is globally forbidden."
      | _ => "Action blocked.")

/-- The global predicate ban (nodes.py lines 867-874): applies to the
edge-querying tools only, and only to a truthy `predicate` argument. -/
def predBanMsg (hc : HardConstraintsD) (tool_name : String)
    (args : Args) : Option String :=
  if tool_name = "get_edges" ∨ tool_name = "get_edge_summary" then
    match argStrTruthy args "predicate" with
    | some pred =>
      if hc.forbidden_predicates.contains pred then
        some ("Action blocked: The predicate " ++ pred ++
              " is globally forbidden.")
      else none
    | none => none
  else none

/-- The granular (source, predicate) continuation ban (nodes.py lines
876-888): applies to the edge-querying tools only, when both a truthy
predicate and a truthy source argument are present.  The dict lookups
`fc.get("source") == source` compare as `False` whenever the source
value is not a string. -/
def contBanMsg (hc : HardConstraintsD) (tool_name : String)
    (args : Args) : Option String :=
  if tool_name = "get_edges" ∨ tool_name = "get_edge_summary" then
    match argStrTruthy args "predicate", executorSource args with
    | some pred, some (ArgVal.vstr src) =>
      match hc.forbidden_continuations.find?
          (fun fc => fc.source == src && fc.predicate == pred) with
      | some _ =>
        some ("Action blocked: The path " ++ src ++ " --[" ++ pred ++
              "]--> * is forbidden due to loops.")
      | none => none
    | _, _ => none
  else none

/-- The hard-constraint enforcement of `ExecutorNode.__call__`
(nodes.py lines 852-899), in source order: for the edge-querying tools
(`get_edges`, `get_edge_summary`) the global predicate ban and then the
(source, predicate) continuation ban; for every tool the entity ban.
The first firing check returns from the node. -/
def executorPolicy (hc : HardConstraintsD) (tool_name : String)
    (args : Args) : PolicyVerdict :=
  match predBanMsg hc tool_name args with
  | some m => PolicyVerdict.reject m
  | none =>
    match contBanMsg hc tool_name args with
    | some m => PolicyVerdict.reject m
    | none =>
      match entityBanMsg hc args with
      | some m => PolicyVerdict.reject m
      | none => PolicyVerdict.allow

/-- Environment of one executor turn: whether `get_normalized_nodes`
is among the bound tools, the outcome of `_invoke_tool` for the planned
call, and the outcome of the normalizer invocation (consulted only if
that call is made).  Tool results are modelled by their textual
rendering `result_str`. -/
structure ExecEnv where
  hasNormalizer : Bool
  invokeOutcome : Except String String
  normOutcome : Except String String

/-- What one executor turn returns into the state, plus the trace of
the invocations that actually reached the capability provider. -/
structure ExecOut where
  past_steps : List (String × String)
  evidence : List EvidenceItem
  providerCalls : List (String × Args)
deriving DecidableEq, Repr

/-- `result_str[:2000].replace(chr(10), " ")` followed by the ellipsis
of the success output text (nodes.py lines 921-922). -/
def successSnippet (tool_name result_str : String) : String :=
  "✓ " ++ tool_name ++ ": " ++
    ((result_str.take 2000).replace "\n" " ") ++ "..."

/-- `error_type` classification (nodes.py line 941). -/
def errorTypeOf (err : String) : String :=
  if strContains err.toLower ("timeout") then "timeout"
  else "execution_error"

/-- The argument dict of the automatic normalization call, when one is
made (nodes.py lines 990-1010): made iff at least one CURIE token was
extracted and the `get_normalized_nodes` tool is bound. -/
def autoNormCall (hasNormalizer : Bool) (result_str : String) :
    Option Args :=
  let curies := dedupCap5 (findallCuries result_str)
  if curies.isEmpty then none
  else if hasNormalizer then some [("curies", ArgVal.vlist curies)]
  else none

/-- The evidence item and output text `_auto_normalize` hands back on
success (nodes.py lines 1019-1028). -/
def autoNormEvidence (task : String) (nargs : Args) (norm_str : String) :
    EvidenceItem × String :=
  ({ step := task, tool := some "get_normalized_nodes",
     args := some nargs, status := "success", error_type := none,
     data := some norm_str },
   "✓ get_normalized_nodes (auto): " ++
     ((norm_str.take 500).replace "\n" " ") ++ "...")

/-- The body of `ExecutorNode.__call__` from the point where a bound
tool has been selected for the single tool call of the turn
(nodes.py lines 851-964), together with `_auto_normalize`
(lines 984-1031).  Covers: hard-constraint rejection, tool invocation,
success/error evidence, and the auto-normalization follow-up after a
successful `lookup`. -/
def executorToolCall (hc : HardConstraintsD) (env : ExecEnv)
    (task tool_name : String) (args : Args) : ExecOut :=
  match executorPolicy hc tool_name args with
  | PolicyVerdict.reject msg =>
    { past_steps := [(task, msg)],
      evidence := [{ step := task, tool := none, args := none,
                     status := "failed", error_type := none,
                     data := some msg }],
      providerCalls := [] }
  | PolicyVerdict.allow =>
    match env.invokeOutcome with
    | Except.error e =>
      { past_steps := [(task, "✗ " ++ tool_name ++ ": " ++ e)],
        evidence := [{ step := task, tool := some tool_name,
                       args := some args, status := "error",
                       error_type := some (errorTypeOf e),
                       data := some e }],
        providerCalls := [(tool_name, args)] }
    | Except.ok result_str =>
      let evidence_item : EvidenceItem :=
        { step := task, tool := some tool_name, args := some args,
          status := "success", error_type := none,
          data := some result_str }
      let output_text := successSnippet tool_name result_str
      let base : ExecOut :=
        { past_steps := [(task, output_text)],
          evidence := [evidence_item],
          providerCalls := [(tool_name, args)] }
      if tool_name = "lookup" then
        match autoNormCall env.hasNormalizer result_str with
        | none => base
        | some nargs =>
          match env.normOutcome with
          | Except.ok norm_str =>
            let ne := autoNormEvidence task nargs norm_str
            { past_steps := [(task, output_text), (task, ne.2)],
              evidence := [evidence_item, ne.1],
              providerCalls :=
                [(tool_name, args), ("get_normalized_nodes", nargs)] }
          | Except.error _ =>
            { base with
              providerCalls :=
                [(tool_name, args), ("get_normalized_nodes", nargs)] }
      else base

/-- `ExecutorNode._invoke_tool` (nodes.py lines 966-982): the outcome
of the wrapped invocation together with the number of attempts that
reached the provider.  `attempts n` is the outcome of the `n`-th
invocation attempt; the fixed 3-second delay before the retry is not
modelled. -/
def invoke_tool (tool_name : String)
    (attempts : Nat → Except String String) :
    Except String String × Nat :=
  match attempts 0 with
  | Except.ok v => (Except.ok v, 1)
  | Except.error e =>
    if tool_name = "lookup" then (attempts 1, 2)
    else (Except.error e, 1)

/- ------------------------------------------------------------------ -/
/- DecisionMakerNode (nodes.py lines 349-440) and its workflow wrapper -/
/- ------------------------------------------------------------------ -/

/-- `_EMPTY_MARKERS` (nodes.py lines 364-369). -/
def EMPTY_MARKERS : List String :=
  ["No edges found", "Found 0 results", "Found 0 edge",
   "--[unknown]--> Unknown"]

/-- Python `s.startswith(pre)`, computed on character lists. -/
def strStartsWith (s pre : String) : Bool :=
  pre.toList.isPrefixOf s.toList

/-- `_is_productive` (nodes.py lines 370-373).  `past_steps` outcome
texts are strings on every code path, so the `isinstance` guard is
vacuous in the model. -/
def is_productive (output : String) : Bool :=
  strStartsWith output ("✓") &&
    !(EMPTY_MARKERS.any (fun m => strContains output m))

/-- The backward scan over reversed `past_steps` counting trailing
non-productive steps (nodes.py lines 376-380), on the already-reversed
list. -/
def countLeadingNonProductive : List (String × String) → Nat
  | [] => 0
  | (_, output) :: rest =>
    if is_productive output then 0
    else countLeadingNonProductive rest + 1

/-- `consecutive_failures` as computed by `DecisionMakerNode.__call__`. -/
def consecutive_failures (past_steps : List (String × String)) : Nat :=
  countLeadingNonProductive past_steps.reverse

/-- One `interpreted_evidence` dict as read by the decision maker
(`e.get(...)` — keys may be absent). -/
structure InterpEvD where
  subject_curie : Option String
  object_curie : Option String
  predicate : Option String
deriving DecidableEq, Repr

/-- The `answer_contract` dict as read by the decision maker
(nodes.py lines 400, 406): `required_predicates` defaults to `[]`,
`min_unique_entities` to `1` when the key is absent. -/
structure ContractDict where
  required_predicates : List String
  min_unique_entities : Option Nat
deriving DecidableEq, Repr

/-- `contract.get("min_unique_entities", 1)`. -/
def minUnique (c : ContractDict) : Nat :=
  c.min_unique_entities.getD 1

/-- `e.get("subject_curie") or e.get("object_curie", "")`
(nodes.py line 402) — Python `or`, empty/absent subject falls through. -/
def entityKey (e : InterpEvD) : String :=
  pyOrStr e.subject_curie (e.object_curie.getD "")

/-- `unique_entities` (nodes.py lines 401-405): the number of distinct
subject-or-else-object identifiers among interpreted evidence whose
predicate lies in the contract's `required_predicates`. -/
def unique_entities (contract : ContractDict)
    (interpreted : List InterpEvD) : Nat :=
  (((interpreted.filter (fun e =>
      match e.predicate with
      | some p => contract.required_predicates.contains p
      | none => false)).map entityKey).eraseDups).length

/-- Structured output of the decision-maker reasoning call
(`DecisionMaker.control_decision`, state.py line 95). -/
inductive Ctrl where
  | explore
  | synthesize
  | stop
deriving DecidableEq, Repr

/-- The fields of the structured decision output the node consumes. -/
structure DMOut where
  control_decision : Ctrl
  reasoning : String
deriving DecidableEq, Repr

/-- State slice consumed by `DecisionMakerNode.__call__`. -/
structure DMState where
  past_steps : List (String × String)
  interpreted_evidence : List InterpEvD
  iteration_count : Nat
  max_iterations : Nat
  answer_contract : ContractDict
deriving DecidableEq, Repr

/-- The delta dict returned by `DecisionMakerNode.__call__`. -/
structure DecisionDelta where
  should_explore_more : Bool
  should_transition_to_synthesis : Bool
  ready_to_answer : Bool
  decision_reasoning : String
deriving DecidableEq, Repr

/-- `DecisionMakerNode.__call__` (nodes.py lines 356-440).  The
reasoning provider is the oracle, receiving the computed
`unique_entities` and `min_unique_entities` (the other prompt inputs
do not influence the node's own control flow); `.error` models an
exception escaping `_invoke`. -/
def decision_maker_node (st : DMState)
    (oracle : Nat → Nat → Except String DMOut) : DecisionDelta :=
  let cf := consecutive_failures st.past_steps
  if 3 ≤ cf ∧ 2 < st.iteration_count then
    let synth := !st.interpreted_evidence.isEmpty
    { should_explore_more := false,
      should_transition_to_synthesis := synth,
      ready_to_answer := true,
      decision_reasoning :=
        "Forced " ++ (if synth then "synthesize" else "stop") ++ ": " ++
        toString cf ++
        " consecutive steps produced no evidence. Escalating to avoid infinite loop." }
  else
    match oracle (unique_entities st.answer_contract
        st.interpreted_evidence) (minUnique st.answer_contract) with
    | Except.ok result =>
      { should_explore_more := result.control_decision == Ctrl.explore,
        should_transition_to_synthesis :=
          result.control_decision == Ctrl.synthesize,
        ready_to_answer := result.control_decision != Ctrl.explore,
        decision_reasoning := result.reasoning }
    | Except.error e =>
      let at_limit := st.max_iterations ≤ st.iteration_count
      { should_explore_more := !at_limit,
        should_transition_to_synthesis := at_limit,
        ready_to_answer := at_limit,
        decision_reasoning :=
          "Error in decision making: " ++ e ++ ". Defaulting to " ++
          (if at_limit then "stop" else "continue") ++ "." }

/-- The `decision_maker` graph binding (workflow.py lines 36-39): runs
the node and additionally writes `iteration_count := old + 1` into the
delta; `iteration_count` has overwrite merge semantics (state.py line
35, not `Annotated` with `operator.add`), so this is the next state's
counter. -/
def decision_maker_graph_node (st : DMState)
    (oracle : Nat → Nat → Except String DMOut) : DecisionDelta × Nat :=
  (decision_maker_node st oracle, st.iteration_count + 1)

/- ------------------------------------------------------------------ -/
/- EvidenceInterpreterNode (nodes.py lines 447-484)                    -/
/- ------------------------------------------------------------------ -/

/-- Rendering of an argument value under Python `str(...)` as used for
the `NegativeKnowledge` fields; non-string values render opaquely. -/
def avalStr : ArgVal → String
  | ArgVal.vstr s => s
  | ArgVal.vlist _ => "<list>"
  | ArgVal.vother => "<obj>"

/-- A `NegativeKnowledge` entry (state.py lines 184-189). -/
structure NegKD where
  entity : String
  predicate : String
  failure_reason : String
  iteration : Nat
deriving DecidableEq, Repr

/-- The `NegativeKnowledge` entry built from a non-success record
(nodes.py lines 462-467). -/
def negFromRecord (last : EvidenceItem) (iteration : Nat) : NegKD :=
  let args := last.args.getD []
  { entity := avalStr ((argGet args "curie").getD (ArgVal.vstr "unknown")),
    predicate :=
      avalStr ((argGet args "predicate").getD (ArgVal.vstr "unknown")),
    failure_reason := pyOrStr last.data "Timeout/Error",
    iteration := iteration }

/-- The delta dict of the evidence interpreter; `none` models an
absent key (the node returns `{}` on several paths). -/
structure InterpDelta where
  interpreted_evidence : Option (List InterpEvD)
  negative_knowledge : Option (List NegKD)
deriving DecidableEq, Repr

/-- `EvidenceInterpreterNode.__call__` (nodes.py lines 454-484): only
the most recently appended evidence record is examined; non-success
yields exactly one negative-knowledge entry; successful records of
tools other than `get_edges` / `get_edges_between` yield nothing; an
edge-shaped success defers to the reasoning oracle (whose failure
yields nothing). -/
def evidence_interpreter_node (evidence : List EvidenceItem)
    (iteration : Nat) (oracle : Except String (List InterpEvD)) :
    InterpDelta :=
  match evidence.getLast? with
  | none => { interpreted_evidence := none, negative_knowledge := none }
  | some last =>
    if last.status ≠ "success" then
      { interpreted_evidence := none,
        negative_knowledge := some [negFromRecord last iteration] }
    else if ¬(last.tool = some "get_edges" ∨
              last.tool = some "get_edges_between") then
      { interpreted_evidence := none, negative_knowledge := none }
    else
      match oracle with
      | Except.ok items =>
        { interpreted_evidence := some items, negative_knowledge := none }
      | Except.error _ =>
        { interpreted_evidence := none, negative_knowledge := none }

/- ------------------------------------------------------------------ -/
/- PlanGatekeeperNode (nodes.py lines 187-214)                         -/
/- ------------------------------------------------------------------ -/

/-- `PlanningPhase.decision` (state.py lines 197-199). -/
inductive GateDecision where
  | approved
  | feedback
deriving DecidableEq, Repr

/-- The delta dict of the gatekeeper; `none` models an absent key. -/
structure GateDelta where
  is_plan_approved : Bool
  planning_feedback : Option String
  response : Option String
deriving DecidableEq, Repr

/-- `PlanGatekeeperNode.__call__` (nodes.py lines 194-214).
`plan_proposal` is checked under Python truthiness (absent or empty
string both short-circuit); the classification is the oracle, with
`.error` modelling an exception. -/
def plan_gatekeeper_node (plan_proposal : Option String) (input : String)
    (oracle : Except String GateDecision) : GateDelta :=
  match plan_proposal with
  | none => { is_plan_approved := false, planning_feedback := none,
              response := none }
  | some p =>
    if p = "" then
      { is_plan_approved := false, planning_feedback := none,
        response := none }
    else
      match oracle with
      | Except.ok GateDecision.approved =>
        { is_plan_approved := true, planning_feedback := some "",
          response := some "" }
      | Except.ok GateDecision.feedback =>
        { is_plan_approved := false, planning_feedback := some input,
          response := none }
      | Except.error _ =>
        { is_plan_approved := false, planning_feedback := none,
          response := none }

/- ------------------------------------------------------------------ -/
/- QueryClassifierNode (nodes.py lines 117-184)                        -/
/- ------------------------------------------------------------------ -/

/-- `_VALID_PREDICATES_BY_TYPE["treatment"]` (nodes.py lines 122-127). -/
def VALID_TREATMENT_PREDICATES : List String :=
  ["biolink:treats", "biolink:treats_or_applied_or_studied_to_treat"]

/-- The contract dict produced by the classifier, with the fields the
programmatic validation touches. -/
structure AnswerContractM where
  query_type : String
  required_entity_types : List String
  required_predicates : List String
deriving DecidableEq, Repr

/-- The programmatic predicate validation of `QueryClassifierNode`
(nodes.py lines 149-163): for a `treatment` contract, keep only
allowlisted predicates and fall back to an allowed default when none
survive.  (The code writes the filtered list back only when it differs
from the original, which is extensionally the same; the Python default
is `next(iter(allowed))` over a two-element set — an unspecified but
allowlisted element, modelled here as the first listed predicate.) -/
def query_classifier_validate (c : AnswerContractM) : AnswerContractM :=
  if c.query_type = "treatment" then
    let filtered := c.required_predicates.filter
      (fun p => VALID_TREATMENT_PREDICATES.contains p)
    let filtered :=
      if filtered.isEmpty then ["biolink:treats"] else filtered
    { c with required_predicates := filtered }
  else c

/-- `QueryClassifierNode.__call__` (nodes.py lines 137-184): apply the
programmatic validation to the classified contract, or fall back to the
default association contract when classification raises. -/
def query_classifier_node (oracle : Except String AnswerContractM) :
    AnswerContractM :=
  match oracle with
  | Except.ok c => query_classifier_validate c
  | Except.error _ =>
    { query_type := "association",
      required_entity_types := ["Entity"],
      required_predicates := ["biolink:related_to"] }

/- ================================================================== -/
/- Theorems                                                            -/
/- ================================================================== -/

/-- C1: whenever the count of consecutive trailing non-productive past
steps reaches 3 and `iteration_count` exceeds 2, the decision step
forces the terminal decision — synthesize exactly when
`interpreted_evidence` is non-empty, stop otherwise — with exploration
off and readiness on, and the outcome is independent of whatever the
reasoning provider would return. -/
theorem C1_forced_terminal_decision (st : DMState)
    (oracle : Nat → Nat → Except String DMOut)
    (h1 : 3 ≤ consecutive_failures st.past_steps)
    (h2 : 2 < st.iteration_count) :
    (decision_maker_node st oracle).should_explore_more = false ∧
    (decision_maker_node st oracle).ready_to_answer = true ∧
    (decision_maker_node st oracle).should_transition_to_synthesis =
      !st.interpreted_evidence.isEmpty ∧
    ∀ oracle2, decision_maker_node st oracle =
      decision_maker_node st oracle2 := by
  have hc : 3 ≤ consecutive_failures st.past_steps ∧
      2 < st.iteration_count := ⟨h1, h2⟩
  refine ⟨?_, ?_, ?_, ?_⟩
  · simp only [decision_maker_node]
    rw [if_pos hc]
  · simp only [decision_maker_node]
    rw [if_pos hc]
  · simp only [decision_maker_node]
    rw [if_pos hc]
  · intro oracle2
    simp only [decision_maker_node]
    rw [if_pos hc, if_pos hc]

/-- C1 witness: a concrete state with three trailing non-productive
steps (an error, a no-tool-call turn, and a fixed empty-result marker)
at iteration 3 — the forced decision is synthesize because one
interpreted-evidence item exists, even though the oracle errors. -/
def c1state : DMState :=
  { past_steps :=
      [("s1", "✗ get_edges: TimeoutError: timed out"),
       ("s2", "No tool call generated"),
       ("s3", "✓ get_edges: No edges found")],
    interpreted_evidence :=
      [{ subject_curie := some "CHEBI:6801", object_curie := none,
         predicate := some "biolink:treats" }],
    iteration_count := 3, max_iterations := 15,
    answer_contract := { required_predicates := ["biolink:treats"],
                         min_unique_entities := none } }

theorem C1_forced_terminal_decision_witness :
    (decision_maker_node c1state
        (fun _ _ => Except.error "provider down")).should_explore_more
      = false ∧
    (decision_maker_node c1state
        (fun _ _ => Except.error "provider down")).ready_to_answer
      = true ∧
    (decision_maker_node c1state
        (fun _ _ => Except.error "provider down")).should_transition_to_synthesis
      = !c1state.interpreted_evidence.isEmpty ∧
    ∀ oracle2, decision_maker_node c1state
        (fun _ _ => Except.error "provider down") =
      decision_maker_node c1state oracle2 :=
  C1_forced_terminal_decision c1state (fun _ _ => Except.error "provider down")
    (by decide) (by decide)

/-- C5: the capability-invocation retry of `_invoke_tool` is exactly
one extra attempt and applies only to the `lookup` (entity-resolution)
tool: a first-attempt success is returned after one attempt; for every
other tool a first-attempt failure is raised after one attempt with no
retry; for `lookup` a failing first attempt leads to exactly one
second attempt whose outcome — in particular a second failure — is
propagated to the caller. -/
theorem C5_retry_policy (tool_name : String)
    (attempts : Nat → Except String String) :
    (∀ v, attempts 0 = Except.ok v →
      invoke_tool tool_name attempts = (Except.ok v, 1)) ∧
    (∀ e, attempts 0 = Except.error e → tool_name ≠ "lookup" →
      invoke_tool tool_name attempts = (Except.error e, 1)) ∧
    (∀ e, attempts 0 = Except.error e →
      invoke_tool "lookup" attempts = (attempts 1, 2)) ∧
    (∀ e e', attempts 0 = Except.error e → attempts 1 = Except.error e' →
      invoke_tool "lookup" attempts = (Except.error e', 2)) := by
  refine ⟨?_, ?_, ?_, ?_⟩
  · intro v hv
    simp only [invoke_tool, hv]
  · intro e he hn
    simp only [invoke_tool, he, if_neg hn]
  · intro e he
    simp [invoke_tool, he]
  · intro e e' he he'
    simp [invoke_tool, he, he']

theorem C5_retry_policy_witness :
    invoke_tool "get_edges"
      (fun n => if n = 0 then Except.error "TimeoutError: timed out"
                else Except.ok "unreached") =
      (Except.error "TimeoutError: timed out", 1) ∧
    invoke_tool "lookup" (fun _ => Except.error "TimeoutError: timed out") =
      (Except.error "TimeoutError: timed out", 2) :=
  ⟨(C5_retry_policy "get_edges" _).2.1 "TimeoutError: timed out" rfl
      (by decide),
   (C5_retry_policy "lookup"
      (fun _ => Except.error "TimeoutError: timed out")).2.2.2
      "TimeoutError: timed out" "TimeoutError: timed out" rfl rfl⟩

/-- C6: the plan-negotiation gatekeeper sets `is_plan_approved` to
true exactly when a (truthy) plan proposal exists and the
classification is the explicit positive `approved`; every other
outcome — feedback classification, a classification exception, or a
missing/empty plan proposal — leaves the plan not approved. -/
theorem C6_gatekeeper_approval (plan_proposal : Option String)
    (input : String) (oracle : Except String GateDecision) :
    (plan_gatekeeper_node plan_proposal input oracle).is_plan_approved
      = true ↔
    ((∃ p, plan_proposal = some p ∧ p ≠ "") ∧
      oracle = Except.ok GateDecision.approved) := by
  match plan_proposal with
  | none => simp [plan_gatekeeper_node]
  | some p =>
    by_cases hp : p = ""
    · subst hp
      simp [plan_gatekeeper_node]
    · match oracle with
      | Except.ok GateDecision.approved =>
        simp [plan_gatekeeper_node, if_neg hp, hp]
      | Except.ok GateDecision.feedback =>
        simp [plan_gatekeeper_node, if_neg hp]
      | Except.error e =>
        simp [plan_gatekeeper_node, if_neg hp]

/-- C9: one completed decision cycle writes back exactly
`iteration_count + 1` — the counter increases by exactly 1 per cycle
and in particular never decreases.  (The decision-maker graph binding
is the only writer of `iteration_count` in the workflow, and the field
merges by overwrite.) -/
theorem C9_iteration_count_increment (st : DMState)
    (oracle : Nat → Nat → Except String DMOut) :
    (decision_maker_graph_node st oracle).2 = st.iteration_count + 1 ∧
    st.iteration_count < (decision_maker_graph_node st oracle).2 :=
  ⟨rfl, Nat.lt_succ_self _⟩

/-- C10: whenever the query classifier successfully produces a
contract of query type `treatment`, the stored contract still has type
`treatment` and its `required_predicates` is a non-empty list whose
every element belongs to the fixed allowlist; moreover every
allowlisted predicate proposed by the provider is kept (only the
out-of-allowlist ones are filtered away, and a default allowed
predicate is substituted when none remain). -/
theorem C10_treatment_predicate_allowlist (c : AnswerContractM)
    (h : c.query_type = "treatment") :
    (query_classifier_node (Except.ok c)).query_type = "treatment" ∧
    (query_classifier_node (Except.ok c)).required_predicates ≠ [] ∧
    (∀ p ∈ (query_classifier_node (Except.ok c)).required_predicates,
      p ∈ VALID_TREATMENT_PREDICATES) ∧
    (∀ p ∈ c.required_predicates, p ∈ VALID_TREATMENT_PREDICATES →
      p ∈ (query_classifier_node (Except.ok c)).required_predicates) := by
  simp only [query_classifier_node, query_classifier_validate, if_pos h]
  by_cases hf : (c.required_predicates.filter
      (fun p => VALID_TREATMENT_PREDICATES.contains p)).isEmpty
  · rw [if_pos hf]
    refine ⟨h, by simp, by simp [VALID_TREATMENT_PREDICATES], ?_⟩
    intro p hp hv
    exfalso
    rw [List.isEmpty_iff] at hf
    have : p ∈ c.required_predicates.filter
        (fun p => VALID_TREATMENT_PREDICATES.contains p) := by
      rw [List.mem_filter]
      exact ⟨hp, by simpa using hv⟩
    rw [hf] at this
    exact List.not_mem_nil p this
  · rw [if_neg hf]
    refine ⟨h, by rwa [Ne, ← List.isEmpty_iff], ?_, ?_⟩
    · intro p hp
      rw [List.mem_filter] at hp
      simpa using hp.2
    · intro p hp hv
      rw [List.mem_filter]
      exact ⟨hp, by simpa using hv⟩

theorem C10_treatment_predicate_allowlist_witness :
    (query_classifier_node (Except.ok
      { query_type := "treatment",
        required_entity_types := ["Drug"],
        required_predicates :=
          ["biolink:related_to", "biolink:treats"] })).query_type
      = "treatment" ∧
    (query_classifier_node (Except.ok
      { query_type := "treatment",
        required_entity_types := ["Drug"],
        required_predicates :=
          ["biolink:related_to", "biolink:treats"] })).required_predicates
      ≠ [] ∧
    (∀ p ∈ (query_classifier_node (Except.ok
      { query_type := "treatment",
        required_entity_types := ["Drug"],
        required_predicates :=
          ["biolink:related_to", "biolink:treats"] })).required_predicates,
      p ∈ VALID_TREATMENT_PREDICATES) ∧
    (∀ p ∈ (["biolink:related_to", "biolink:treats"] : List String),
      p ∈ VALID_TREATMENT_PREDICATES →
      p ∈ (query_classifier_node (Except.ok
      { query_type := "treatment",
        required_entity_types := ["Drug"],
        required_predicates :=
          ["biolink:related_to", "biolink:treats"] })).required_predicates) :=
  C10_treatment_predicate_allowlist
    { query_type := "treatment", required_entity_types := ["Drug"],
      required_predicates := ["biolink:related_to", "biolink:treats"] }
    rfl

/-- C8: the Evidence Interpreter looks only at the most recently
appended evidence record (two evidence lists with the same last record
are handled identically); a non-success record yields exactly one
negative-knowledge entry (entity and predicate from the record's
arguments, its failure reason, the current iteration) and no
interpreted evidence; a successful record of a non-relationship tool
yields nothing; interpreted evidence can only arise from a successful
`get_edges` / `get_edges_between` record via the reasoning provider. -/
theorem C8_interpreter_latest_record (evidence : List EvidenceItem)
    (last : EvidenceItem) (iteration : Nat)
    (oracle : Except String (List InterpEvD))
    (hlast : evidence.getLast? = some last) :
    (last.status ≠ "success" →
      evidence_interpreter_node evidence iteration oracle =
        { interpreted_evidence := none,
          negative_knowledge := some [negFromRecord last iteration] }) ∧
    (last.status = "success" →
      ¬(last.tool = some "get_edges" ∨
        last.tool = some "get_edges_between") →
      evidence_interpreter_node evidence iteration oracle =
        { interpreted_evidence := none, negative_knowledge := none }) ∧
    (∀ items,
      (evidence_interpreter_node evidence iteration
          oracle).interpreted_evidence = some items →
      last.status = "success" ∧
      (last.tool = some "get_edges" ∨
        last.tool = some "get_edges_between") ∧
      oracle = Except.ok items) ∧
    (∀ evidence2, evidence2.getLast? = some last →
      evidence_interpreter_node evidence2 iteration oracle =
        evidence_interpreter_node evidence iteration oracle) := by
  refine ⟨?_, ?_, ?_, ?_⟩
  · intro hs
    simp only [evidence_interpreter_node, hlast]
    rw [if_pos hs]
  · intro hs ht
    simp only [evidence_interpreter_node, hlast]
    rw [if_neg (fun h => h hs), if_pos ht]
  · intro items hitems
    by_cases hs : last.status = "success"
    · by_cases ht : last.tool = some "get_edges" ∨
          last.tool = some "get_edges_between"
      · refine ⟨hs, ht, ?_⟩
        simp only [evidence_interpreter_node, hlast] at hitems
        rw [if_neg (fun h => h hs), if_neg (not_not_intro ht)] at hitems
        match horacle : oracle with
        | Except.ok l =>
          simp at hitems
          rw [hitems]
        | Except.error e =>
          simp at hitems
      · exfalso
        simp only [evidence_interpreter_node, hlast] at hitems
        rw [if_neg (fun h => h hs), if_pos ht] at hitems
        simp at hitems
    · exfalso
      simp only [evidence_interpreter_node, hlast] at hitems
      rw [if_pos hs] at hitems
      simp at hitems
  · intro evidence2 h2
    simp only [evidence_interpreter_node, hlast, h2]

/-- C8 witness: a concrete timed-out `get_edges` record is converted
into exactly one negative-knowledge entry carrying the queried entity,
predicate, failure text and iteration, with no interpreted evidence. -/
def c8record : EvidenceItem :=
  { step := "Get treats edges for MONDO:0005148",
    tool := some "get_edges",
    args := some [("curie", ArgVal.vstr "MONDO:0005148"),
                  ("predicate", ArgVal.vstr "biolink:treats")],
    status := "error", error_type := some "timeout",
    data := some "TimeoutError: request timed out" }

theorem C8_interpreter_latest_record_witness :
    evidence_interpreter_node [c8record] 4 (Except.error "unused") =
      { interpreted_evidence := none,
        negative_knowledge := some
          [{ entity := "MONDO:0005148", predicate := "biolink:treats",
             failure_reason := "TimeoutError: request timed out",
             iteration := 4 }] } :=
  (C8_interpreter_latest_record [c8record] c8record 4
    (Except.error "unused") rfl).1 (by decide)

/- Helper lemmas for the policy-enforcement claims. -/

lemma find?_eq_isSome_of_exists {α : Type} (p : α → Bool) (l : List α)
    (h : ∃ x ∈ l, p x = true) : (l.find? p).isSome := by
  rw [List.find?_isSome]
  obtain ⟨x, hx, hp⟩ := h
  exact ⟨x, hx, hp⟩

lemma predBanMsg_isSome (hc : HardConstraintsD) (tool_name : String)
    (args : Args) (p : String)
    (hedge : tool_name = "get_edges" ∨ tool_name = "get_edge_summary")
    (hp : argStrTruthy args "predicate" = some p)
    (hforb : p ∈ hc.forbidden_predicates) :
    (predBanMsg hc tool_name args).isSome := by
  simp only [predBanMsg, if_pos hedge, hp]
  rw [if_pos (show hc.forbidden_predicates.contains p = true by
    simpa using hforb)]
  rfl

lemma contBanMsg_isSome (hc : HardConstraintsD) (tool_name : String)
    (args : Args) (p s : String)
    (hedge : tool_name = "get_edges" ∨ tool_name = "get_edge_summary")
    (hp : argStrTruthy args "predicate" = some p)
    (hs : executorSource args = some (ArgVal.vstr s))
    (hfc : ∃ fc ∈ hc.forbidden_continuations,
      fc.source = s ∧ fc.predicate = p) :
    (contBanMsg hc tool_name args).isSome := by
  obtain ⟨fc, hfcmem, hfc1, hfc2⟩ := hfc
  have hfind : (hc.forbidden_continuations.find?
      (fun fc => fc.source == s && fc.predicate == p)).isSome :=
    find?_eq_isSome_of_exists _ _ ⟨fc, hfcmem, by simp [hfc1, hfc2]⟩
  obtain ⟨y, hy⟩ := Option.isSome_iff_exists.1 hfind
  simp only [contBanMsg, if_pos hedge, hp, hs, hy]
  rfl

lemma entityBanMsg_isSome (hc : HardConstraintsD) (args : Args)
    (k s : String) (hmem : (k, ArgVal.vstr s) ∈ args)
    (hforb : s ∈ hc.forbidden_entities) :
    (entityBanMsg hc args).isSome := by
  have hfind : (args.find? (fun p =>
      match p.2 with
      | ArgVal.vstr s => hc.forbidden_entities.contains s
      | _ => false)).isSome :=
    find?_eq_isSome_of_exists _ _
      ⟨(k, ArgVal.vstr s), hmem, by simpa using hforb⟩
  obtain ⟨y, hy⟩ := Option.isSome_iff_exists.1 hfind
  simp only [entityBanMsg, hy]
  rfl

lemma executorPolicy_reject_of_ban (hc : HardConstraintsD)
    (tool_name : String) (args : Args)
    (h : (predBanMsg hc tool_name args).isSome ∨
         (contBanMsg hc tool_name args).isSome ∨
         (entityBanMsg hc args).isSome) :
    ∃ m, executorPolicy hc tool_name args = PolicyVerdict.reject m := by
  cases hpb : predBanMsg hc tool_name args with
  | some m => exact ⟨m, by simp [executorPolicy, hpb]⟩
  | none =>
    cases hcb : contBanMsg hc tool_name args with
    | some m => exact ⟨m, by simp [executorPolicy, hpb, hcb]⟩
    | none =>
      cases heb : entityBanMsg hc args with
      | some m => exact ⟨m, by simp [executorPolicy, hpb, hcb, heb]⟩
      | none =>
        rw [hpb, hcb, heb] at h
        simp at h

/-- C2 counterexample: a `get_edges` call whose requested predicate is
globally forbidden is blocked before reaching the capability provider
and yields exactly one evidence record — but that record's status is
the literal "failed", not "rejected": no record with status "rejected"
is ever produced, so the claim as stated is false at this input. -/
def c2hc : HardConstraintsD :=
  { forbidden_predicates := ["biolink:treats"],
    forbidden_entities := [], forbidden_continuations := [] }

def c2args : Args :=
  [("curie", ArgVal.vstr "MONDO:0005148"),
   ("predicate", ArgVal.vstr "biolink:treats")]

def c2env : ExecEnv :=
  { hasNormalizer := true, invokeOutcome := Except.ok "unreached",
    normOutcome := Except.ok "unreached" }

/-- Arguments of a `get_edges_between` call that carry the same
globally forbidden predicate: the code's predicate ban does not apply
to this tool, so the call goes through to the provider. -/
def c2bargs : Args :=
  [("curie1", ArgVal.vstr "MONDO:0005148"),
   ("curie2", ArgVal.vstr "CHEBI:6801"),
   ("predicate", ArgVal.vstr "biolink:treats")]

theorem C2_counterexample_status_not_rejected :
    (c2hc.forbidden_predicates.contains "biolink:treats" = true ∧
     (executorToolCall c2hc c2env "step" "get_edges" c2args).providerCalls
       = [] ∧
     ((executorToolCall c2hc c2env "step" "get_edges" c2args).evidence.map
       (fun e => e.status)) = ["failed"] ∧
     (∀ e ∈ (executorToolCall c2hc c2env "step" "get_edges"
        c2args).evidence, e.status ≠ "rejected")) ∧
    (argStrTruthy c2bargs "predicate" = some "biolink:treats" ∧
     (executorToolCall c2hc c2env "step2" "get_edges_between"
        c2bargs).providerCalls = [("get_edges_between", c2bargs)] ∧
     ((executorToolCall c2hc c2env "step2" "get_edges_between"
        c2bargs).evidence.map (fun e => e.status)) = ["success"]) := by
  decide

/-- C2 (amended): for a planned call of an edge-querying tool whose
truthy requested predicate is globally forbidden, or whose (truthy
source, truthy predicate) pair is a forbidden continuation, and for a
planned call of any tool carrying a string argument that is a
forbidden entity, the call never reaches the capability provider (in
particular it is never retried), and exactly one evidence record is
produced — with status "failed" (the code's rejection marker) — along
with exactly one past-steps entry carrying the same block message. -/
theorem C2_policy_rejection (hc : HardConstraintsD) (env : ExecEnv)
    (task tool_name : String) (args : Args)
    (hban :
      ((tool_name = "get_edges" ∨ tool_name = "get_edge_summary") ∧
        ((∃ p, argStrTruthy args "predicate" = some p ∧
            p ∈ hc.forbidden_predicates) ∨
         (∃ p s, argStrTruthy args "predicate" = some p ∧
            executorSource args = some (ArgVal.vstr s) ∧
            ∃ fc ∈ hc.forbidden_continuations,
              fc.source = s ∧ fc.predicate = p))) ∨
      (∃ k s, (k, ArgVal.vstr s) ∈ args ∧ s ∈ hc.forbidden_entities)) :
    (executorToolCall hc env task tool_name args).providerCalls = [] ∧
    ∃ msg,
      (executorToolCall hc env task tool_name args).evidence =
        [{ step := task, tool := none, args := none, status := "failed",
           error_type := none, data := some msg }] ∧
      (executorToolCall hc env task tool_name args).past_steps =
        [(task, msg)] := by
  have hrej : ∃ m, executorPolicy hc tool_name args =
      PolicyVerdict.reject m := by
    apply executorPolicy_reject_of_ban
    rcases hban with ⟨hedge, hp | hc2⟩ | hent
    · obtain ⟨p, hp1, hp2⟩ := hp
      exact Or.inl (predBanMsg_isSome hc tool_name args p hedge hp1 hp2)
    · obtain ⟨p, s, h1, h2, h3⟩ := hc2
      exact Or.inr (Or.inl
        (contBanMsg_isSome hc tool_name args p s hedge h1 h2 h3))
    · obtain ⟨k, s, h1, h2⟩ := hent
      exact Or.inr (Or.inr (entityBanMsg_isSome hc args k s h1 h2))
  obtain ⟨m, hm⟩ := hrej
  refine ⟨?_, m, ?_, ?_⟩ <;> simp [executorToolCall, hm]

theorem C2_policy_rejection_witness :
    (executorToolCall c2hc c2env "step" "get_edges" c2args).providerCalls
      = [] ∧
    ∃ msg,
      (executorToolCall c2hc c2env "step" "get_edges" c2args).evidence =
        [{ step := "step", tool := none, args := none, status := "failed",
           error_type := none, data := some msg }] ∧
      (executorToolCall c2hc c2env "step" "get_edges" c2args).past_steps =
        [("step", msg)] :=
  C2_policy_rejection c2hc c2env "step" "get_edges" c2args
    (Or.inl ⟨Or.inl rfl, Or.inl ⟨"biolink:treats", rfl, by decide⟩⟩)

/-- C3 counterexample: the contract requires predicate
`biolink:treats` with `min_unique_entities = 3`; exactly 2 distinct
qualifying entities have been found and there are 0 consecutive
failures, yet when the reasoning provider returns synthesize the
decision is synthesize, not explore — the sufficiency comparison is
not machine-enforced, so the claim as stated is false at this input. -/
def c3contract : ContractDict :=
  { required_predicates := ["biolink:treats"],
    min_unique_entities := some 3 }

def c3interp : List InterpEvD :=
  [{ subject_curie := some "CHEBI:6801", object_curie := none,
     predicate := some "biolink:treats" },
   { subject_curie := some "CHEBI:5441", object_curie := none,
     predicate := some "biolink:treats" }]

def c3steps : List (String × String) :=
  [("s1", "✓ get_edges: MONDO:0005148 treats evidence returned")]

def c3state : DMState :=
  { past_steps := c3steps, interpreted_evidence := c3interp,
    iteration_count := 1, max_iterations := 15,
    answer_contract := c3contract }

def c3oracle : Nat → Nat → Except String DMOut :=
  fun _ _ => Except.ok
    { control_decision := Ctrl.synthesize,
      reasoning := "provider chose synthesize" }

theorem C3_counterexample_not_blocked :
    unique_entities c3contract c3interp = 2 ∧
    minUnique c3contract = 3 ∧
    consecutive_failures c3steps = 0 ∧
    (decision_maker_node c3state c3oracle).should_transition_to_synthesis
      = true ∧
    (decision_maker_node c3state c3oracle).should_explore_more = false := by
  decide

/-- C3 (amended): the decision step computes the count of distinct
subject-or-else-object identifiers among `interpreted_evidence` whose
predicate is in the contract's `required_predicates`, together with
the `min_unique_entities` threshold (default 1), and hands both to the
reasoning provider; the below-threshold block on synthesis is prompt
guidance, not machine enforcement — whenever the loop guard does not
fire and the provider answers, the decision flags follow the
provider's control decision exactly (so a provider may synthesize
below threshold). -/
theorem C3_sufficiency_advisory (st : DMState)
    (oracle : Nat → Nat → Except String DMOut) (out : DMOut)
    (hguard : consecutive_failures st.past_steps < 3 ∨
      st.iteration_count ≤ 2)
    (hok : oracle (unique_entities st.answer_contract
        st.interpreted_evidence) (minUnique st.answer_contract) =
      Except.ok out) :
    decision_maker_node st oracle =
      { should_explore_more := out.control_decision == Ctrl.explore,
        should_transition_to_synthesis :=
          out.control_decision == Ctrl.synthesize,
        ready_to_answer := out.control_decision != Ctrl.explore,
        decision_reasoning := out.reasoning } := by
  have hng : ¬(3 ≤ consecutive_failures st.past_steps ∧
      2 < st.iteration_count) := by
    rcases hguard with h | h
    · exact fun hcf => absurd hcf.1 (by omega)
    · exact fun hcf => absurd hcf.2 (by omega)
  simp only [decision_maker_node]
  rw [if_neg hng, hok]

theorem C3_sufficiency_advisory_witness :
    decision_maker_node c3state c3oracle =
      { should_explore_more := false,
        should_transition_to_synthesis := true,
        ready_to_answer := true,
        decision_reasoning := "provider chose synthesize" } :=
  C3_sufficiency_advisory c3state c3oracle
    { control_decision := Ctrl.synthesize,
      reasoning := "provider chose synthesize" }
    (Or.inl (by decide)) rfl

/- Helper lemmas about the pruning loop. -/

lemma pruneLoop_length (max_items : Nat) :
    ∀ (l : List EvidenceItem) (seen : List (String × Option String))
      (acc : List EvidenceItem), acc.length < max_items →
      (pruneLoop max_items l seen acc).length ≤ max_items := by
  intro l
  induction l with
  | nil =>
    intro seen acc h
    simpa [pruneLoop] using Nat.le_of_lt h
  | cons e rest ih =>
    intro seen acc h
    simp only [pruneLoop]
    by_cases hc : seen.contains (e.step, e.tool)
    · rw [if_pos hc]
      exact ih seen acc h
    · rw [if_neg hc]
      by_cases hcap : max_items ≤ (e :: acc).length
      · rw [if_pos hcap]
        simp only [List.length_reverse, List.length_cons]
        omega
      · rw [if_neg hcap]
        exact ih _ _ (by simp at hcap ⊢; omega)

lemma pruneLoop_mem (max_items : Nat) :
    ∀ (l : List EvidenceItem) (seen : List (String × Option String))
      (acc : List EvidenceItem) (x : EvidenceItem),
      x ∈ pruneLoop max_items l seen acc → x ∈ l ∨ x ∈ acc := by
  intro l
  induction l with
  | nil =>
    intro seen acc x hx
    simp only [pruneLoop, List.mem_reverse] at hx
    exact Or.inr hx
  | cons e rest ih =>
    intro seen acc x hx
    simp only [pruneLoop] at hx
    by_cases hc : seen.contains (e.step, e.tool)
    · rw [if_pos hc] at hx
      rcases ih seen acc x hx with h | h
      · exact Or.inl (List.mem_cons_of_mem e h)
      · exact Or.inr h
    · rw [if_neg hc] at hx
      by_cases hcap : max_items ≤ (e :: acc).length
      · rw [if_pos hcap] at hx
        rw [List.mem_reverse, List.mem_cons] at hx
        rcases hx with h | h
        · exact Or.inl (by simp [h])
        · exact Or.inr h
      · rw [if_neg hcap] at hx
        rcases ih _ _ x hx with h | h
        · exact Or.inl (List.mem_cons_of_mem e h)
        · rw [List.mem_cons] at h
          rcases h with h | h
          · exact Or.inl (by simp [h])
          · exact Or.inr h

lemma pruneLoop_sig_nodup (max_items : Nat) :
    ∀ (l : List EvidenceItem) (seen : List (String × Option String))
      (acc : List EvidenceItem),
      ((acc.map (fun e => (e.step, e.tool))).Nodup) →
      (∀ a ∈ acc, (a.step, a.tool) ∈ seen) →
      (((pruneLoop max_items l seen acc).map
        (fun e => (e.step, e.tool))).Nodup) := by
  intro l
  induction l with
  | nil =>
    intro seen acc h1 _
    simpa [pruneLoop] using h1
  | cons e rest ih =>
    intro seen acc h1 h2
    simp only [pruneLoop]
    by_cases hc : seen.contains (e.step, e.tool)
    · rw [if_pos hc]
      exact ih seen acc h1 h2
    · rw [if_neg hc]
      have hnotseen : (e.step, e.tool) ∉ seen := by
        simpa using hc
      have hnotacc : (e.step, e.tool) ∉
          acc.map (fun a => (a.step, a.tool)) := by
        intro hmem
        obtain ⟨a, ha, hsig⟩ := List.mem_map.1 hmem
        exact hnotseen (hsig ▸ h2 a ha)
      have hcons : (((e :: acc).map
          (fun a => (a.step, a.tool))).Nodup) := by
        simp only [List.map_cons, List.nodup_cons]
        exact ⟨hnotacc, h1⟩
      by_cases hcap : max_items ≤ (e :: acc).length
      · rw [if_pos hcap]
        rw [List.map_reverse, List.nodup_reverse]
        exact hcons
      · rw [if_neg hcap]
        refine ih _ _ hcons ?_
        intro a ha
        rw [List.mem_cons] at ha
        rcases ha with ha | ha
        · rw [ha]
          exact List.mem_cons_self _ _
        · exact List.mem_cons_of_mem _ (h2 a ha)

/-- C7 counterexample: 21 successful evidence records with pairwise
distinct (step, tool) signatures exceed the cap of 20; the pruned list
drops the last successful record, so the pruning does not keep all
successful records, falsifying the claim as stated. -/
def c7evidence : List EvidenceItem :=
  (List.range 21).map (fun i =>
    { step := "s" ++ toString i, tool := some "get_edges", args := none,
      status := "success", error_type := none, data := none })

theorem C7_counterexample_drops_successful :
    20 < c7evidence.length ∧
    ({ step := "s20", tool := some "get_edges", args := none,
       status := "success", error_type := none,
       data := none } : EvidenceItem) ∈ c7evidence ∧
    ({ step := "s20", tool := some "get_edges", args := none,
       status := "success", error_type := none,
       data := none } : EvidenceItem).status = "success" ∧
    ({ step := "s20", tool := some "get_edges", args := none,
       status := "success", error_type := none,
       data := none } : EvidenceItem) ∉ prune_evidence c7evidence 20 := by
  decide

/-- C7 (amended): for every evidence list longer than the cap (20),
the pruning function walks the successful records first and then the
most recent half-cap window, keeping the first record of each
(step, tool) signature and truncating at the cap; hence the result is
a subset of the input, its records have pairwise distinct signatures,
and its size is bounded by the cap — but successful records beyond the
cap are dropped. -/
theorem C7_prune_bounded (evidence : List EvidenceItem)
    (h : 20 < evidence.length) :
    (prune_evidence evidence 20).length ≤ 20 ∧
    (∀ e ∈ prune_evidence evidence 20, e ∈ evidence) ∧
    (((prune_evidence evidence 20).map
      (fun e => (e.step, e.tool))).Nodup) := by
  have hn : ¬ evidence.length ≤ 20 := by omega
  simp only [prune_evidence, if_neg hn]
  refine ⟨pruneLoop_length 20 _ [] [] (by decide), ?_, ?_⟩
  · intro e he
    rcases pruneLoop_mem 20 _ [] [] e he with hmem | hmem
    · rw [List.mem_append] at hmem
      rcases hmem with hmem | hmem
      · exact (List.mem_filter.1 hmem).1
      · simp only [pySliceLast] at hmem
        by_cases hk : (20 : Nat) / 2 = 0
        · rw [if_pos hk] at hmem
          exact hmem
        · rw [if_neg hk] at hmem
          exact List.drop_subset _ _ hmem
    · exact absurd hmem (List.not_mem_nil e)
  · exact pruneLoop_sig_nodup 20 _ [] [] (by simp) (by simp)

theorem C7_prune_bounded_witness :
    (prune_evidence c7evidence 20).length ≤ 20 :=
  (C7_prune_bounded c7evidence (by decide)).1

/- Helper lemmas about the CURIE deduplicate-and-cap loop. -/

lemma dedupCapGo_append (cap : Nat) :
    ∀ (l cur : List String), ∃ extra,
      dedupCapGo cap cur l = cur ++ extra ∧ extra.Sublist l := by
  intro l
  induction l with
  | nil => intro cur; exact ⟨[], by simp [dedupCapGo]⟩
  | cons c rest ih =>
    intro cur
    by_cases hm : c ∈ cur
    · by_cases hcap : cap ≤ cur.length
      · exact ⟨[], by simp [dedupCapGo, hm, hcap], List.nil_sublist _⟩
      · obtain ⟨extra, he, hs⟩ := ih cur
        exact ⟨extra, by simp [dedupCapGo, hm, hcap, he],
          hs.trans (List.sublist_cons_self c rest)⟩
    · by_cases hcap : cap ≤ cur.length + 1
      · refine ⟨[c], by simp [dedupCapGo, hm, hcap], ?_⟩
        simp
      · obtain ⟨extra, he, hs⟩ := ih (cur ++ [c])
        refine ⟨c :: extra, ?_, hs.cons₂ c⟩
        simp [dedupCapGo, hm, hcap, he]

lemma dedupCapGo_length (cap : Nat) :
    ∀ (l cur : List String), cur.length < cap →
      (dedupCapGo cap cur l).length ≤ cap := by
  intro l
  induction l with
  | nil => intro cur h; simpa [dedupCapGo] using Nat.le_of_lt h
  | cons c rest ih =>
    intro cur h
    by_cases hm : c ∈ cur
    · have h2 : ¬ cap ≤ cur.length := Nat.not_le.2 h
      simpa [dedupCapGo, hm, h2] using ih cur h
    · by_cases hcap : cap ≤ cur.length + 1
      · simp [dedupCapGo, hm, hcap]
        omega
      · have h2 : (cur ++ [c]).length < cap := by
          simp only [List.length_append, List.length_singleton]
          omega
        simpa [dedupCapGo, hm, hcap] using ih (cur ++ [c]) h2

lemma dedupCapGo_nodup (cap : Nat) :
    ∀ (l cur : List String), cur.Nodup →
      (dedupCapGo cap cur l).Nodup := by
  intro l
  induction l with
  | nil => intro cur h; simpa [dedupCapGo] using h
  | cons c rest ih =>
    intro cur h
    by_cases hm : c ∈ cur
    · by_cases hcap : cap ≤ cur.length
      · simpa [dedupCapGo, hm, hcap] using h
      · simpa [dedupCapGo, hm, hcap] using ih cur h
    · have hnd : (cur ++ [c]).Nodup := by
        rw [List.nodup_append]
        exact ⟨h, List.nodup_singleton c, by simpa⟩
      by_cases hcap : cap ≤ cur.length + 1
      · simpa [dedupCapGo, hm, hcap] using hnd
      · simpa [dedupCapGo, hm, hcap] using ih (cur ++ [c]) hnd

lemma dedupCap5_length (l : List String) : (dedupCap5 l).length ≤ 5 :=
  dedupCapGo_length 5 l [] (by decide)

lemma dedupCap5_nodup (l : List String) : (dedupCap5 l).Nodup :=
  dedupCapGo_nodup 5 l [] List.nodup_nil

lemma dedupCap5_sublist (l : List String) : (dedupCap5 l).Sublist l := by
  obtain ⟨extra, he, hs⟩ := dedupCapGo_append 5 l []
  simpa [dedupCap5, he] using hs

lemma dedupCap5_eq_nil_iff (l : List String) :
    dedupCap5 l = [] ↔ l = [] := by
  constructor
  · intro h
    cases l with
    | nil => rfl
    | cons c rest =>
      exfalso
      obtain ⟨extra, he, _⟩ := dedupCapGo_append 5 rest [c]
      have hstep : dedupCap5 (c :: rest) = [c] ++ extra := by
        simp [dedupCap5, dedupCapGo, he]
      rw [hstep] at h
      simp at h
  · intro h
    rw [h]
    rfl

lemma autoNormCall_none_iff (b : Bool) (s : String) :
    autoNormCall b s = none ↔ (findallCuries s = [] ∨ b = false) := by
  simp only [autoNormCall]
  by_cases hnil : (dedupCap5 (findallCuries s)).isEmpty
  · rw [if_pos hnil]
    constructor
    · intro _
      exact Or.inl ((dedupCap5_eq_nil_iff _).1 (List.isEmpty_iff.1 hnil))
    · intro _
      rfl
  · rw [if_neg hnil]
    have hne : findallCuries s ≠ [] := by
      intro h
      exact hnil (List.isEmpty_iff.2 ((dedupCap5_eq_nil_iff _).2 h))
    cases b with
    | true => simp [hne]
    | false => simp

lemma autoNormCall_some_iff (b : Bool) (s : String) (nargs : Args) :
    autoNormCall b s = some nargs ↔
      (findallCuries s ≠ [] ∧ b = true ∧
       nargs = [("curies", ArgVal.vlist (dedupCap5 (findallCuries s)))]) := by
  simp only [autoNormCall]
  by_cases hnil : (dedupCap5 (findallCuries s)).isEmpty
  · rw [if_pos hnil]
    have hz : findallCuries s = [] :=
      (dedupCap5_eq_nil_iff _).1 (List.isEmpty_iff.1 hnil)
    simp [hz]
  · rw [if_neg hnil]
    have hne : findallCuries s ≠ [] := by
      intro h
      exact hnil (List.isEmpty_iff.2 ((dedupCap5_eq_nil_iff _).2 h))
    cases b with
    | true => simp [hne, eq_comm]
    | false => simp

/-- C4 counterexample: a successful `lookup` whose textual result
contains the identifier token MONDO:0005148, but with the
`get_normalized_nodes` tool not bound: the resolution call succeeded
and an identifier token was found, yet no normalization call is
issued and the turn yields a single evidence record and a single
past-steps entry — the claim's "fires if and only if" is false at
this input. -/
def c4hc : HardConstraintsD :=
  { forbidden_predicates := [], forbidden_entities := [],
    forbidden_continuations := [] }

def c4env : ExecEnv :=
  { hasNormalizer := false,
    invokeOutcome := Except.ok "MONDO:0005148",
    normOutcome := Except.ok "unused" }

def c4out : ExecOut :=
  executorToolCall c4hc c4env "resolve metformin" "lookup" []

theorem C4_counterexample_no_normalizer :
    findallCuries "MONDO:0005148" = ["MONDO:0005148"] ∧
    (c4out.evidence.map (fun e => e.status)) = ["success"] ∧
    (c4out.providerCalls.map Prod.fst) = ["lookup"] ∧
    c4out.past_steps.length = 1 ∧
    c4out.evidence.length = 1 := by
  decide

/-- C4 (amended): for a planned `lookup` call that passes the policy
check, the automatic normalization call is issued if and only if the
lookup invocation succeeds, at least one identifier token (uppercase
prefix, colon, digits) is found in the textual result, and the
normalization tool is bound; at most one normalization call is issued
per turn; any issued call requests exactly the extracted identifiers,
deduplicated keeping first occurrences (a sublist of the scan, hence
order-preserving, without duplicates) and capped at 5; the turn yields
two evidence records and two past-steps entries exactly when the
normalization invocation itself also succeeds, and one of each in
every other case — when the follow-up does not fire on a successful
lookup, when it fires but the normalization invocation fails, and when
the lookup itself fails (which also never fires). -/
theorem C4_auto_followup (hc : HardConstraintsD) (env : ExecEnv)
    (task : String) (args : Args)
    (hallow : executorPolicy hc "lookup" args = PolicyVerdict.allow) :
    ((∃ nargs, ("get_normalized_nodes", nargs) ∈
        (executorToolCall hc env task "lookup" args).providerCalls) ↔
      (∃ result_str, env.invokeOutcome = Except.ok result_str ∧
        findallCuries result_str ≠ [] ∧ env.hasNormalizer = true)) ∧
    ((executorToolCall hc env task "lookup" args).providerCalls.filter
        (fun c => c.1 == "get_normalized_nodes")).length ≤ 1 ∧
    (∀ result_str nargs, env.invokeOutcome = Except.ok result_str →
      ("get_normalized_nodes", nargs) ∈
        (executorToolCall hc env task "lookup" args).providerCalls →
      nargs = [("curies",
        ArgVal.vlist (dedupCap5 (findallCuries result_str)))]) ∧
    (∀ s, (dedupCap5 (findallCuries s)).length ≤ 5 ∧
      (dedupCap5 (findallCuries s)).Nodup ∧
      (dedupCap5 (findallCuries s)).Sublist (findallCuries s)) ∧
    (∀ result_str norm_str,
      env.invokeOutcome = Except.ok result_str →
      env.normOutcome = Except.ok norm_str →
      findallCuries result_str ≠ [] → env.hasNormalizer = true →
      (executorToolCall hc env task "lookup" args).evidence.length = 2 ∧
      (executorToolCall hc env task "lookup" args).past_steps.length = 2) ∧
    (∀ result_str, env.invokeOutcome = Except.ok result_str →
      (findallCuries result_str = [] ∨ env.hasNormalizer = false) →
      (executorToolCall hc env task "lookup" args).evidence.length = 1 ∧
      (executorToolCall hc env task "lookup" args).past_steps.length = 1) ∧
    (∀ result_str e, env.invokeOutcome = Except.ok result_str →
      env.normOutcome = Except.error e →
      (executorToolCall hc env task "lookup" args).evidence.length = 1 ∧
      (executorToolCall hc env task "lookup" args).past_steps.length = 1) ∧
    (∀ e, env.invokeOutcome = Except.error e →
      (executorToolCall hc env task "lookup" args).evidence.length = 1 ∧
      (executorToolCall hc env task "lookup" args).past_steps.length = 1 ∧
      (executorToolCall hc env task "lookup" args).providerCalls =
        [("lookup", args)]) := by
  have hded : ∀ s, (dedupCap5 (findallCuries s)).length ≤ 5 ∧
      (dedupCap5 (findallCuries s)).Nodup ∧
      (dedupCap5 (findallCuries s)).Sublist (findallCuries s) :=
    fun s => ⟨dedupCap5_length _, dedupCap5_nodup _, dedupCap5_sublist _⟩
  obtain ⟨hasN, inv, no⟩ := env
  cases inv with
  | error e =>
    refine ⟨?_, ?_, ?_, hded, ?_, ?_, ?_, ?_⟩
    · constructor
      · rintro ⟨nargs, hmem⟩
        simp [executorToolCall, hallow] at hmem
      · rintro ⟨rs, hrs, _, _⟩
        exact absurd hrs (by simp)
    · simp [executorToolCall, hallow]
    · intro rs nargs h
      exact absurd h (by simp)
    · intro rs ns h _ _ _
      exact absurd h (by simp)
    · intro rs h _
      exact absurd h (by simp)
    · intro rs e' h _
      exact absurd h (by simp)
    · intro e' _
      refine ⟨?_, ?_, ?_⟩ <;> simp [executorToolCall, hallow]
  | ok r =>
    cases hanc : autoNormCall hasN r with
    | none =>
      have hanc' := (autoNormCall_none_iff _ _).1 hanc
      refine ⟨?_, ?_, ?_, hded, ?_, ?_, ?_, ?_⟩
      · constructor
        · rintro ⟨nargs, hmem⟩
          simp [executorToolCall, hallow, hanc] at hmem
        · rintro ⟨rs, hrs, hne, hb⟩
          injection hrs with hr
          subst hr
          have hb' : hasN = true := hb
          rcases hanc' with h | h
          · exact absurd h hne
          · rw [h] at hb'
            exact absurd hb' (by decide)
      · simp [executorToolCall, hallow, hanc]
      · intro rs nargs h hmem
        simp [executorToolCall, hallow, hanc] at hmem
      · intro rs ns h _ hne hb
        injection h with hr
        subst hr
        have hb' : hasN = true := hb
        rcases hanc' with h2 | h2
        · exact absurd h2 hne
        · rw [h2] at hb'
          exact absurd hb' (by decide)
      · intro rs h _
        constructor <;> simp [executorToolCall, hallow, hanc]
      · intro rs e' h _
        constructor <;> simp [executorToolCall, hallow, hanc]
      · intro e' h
        exact absurd h (by simp)
    | some nargs =>
      obtain ⟨hne, hb, hnargs⟩ := (autoNormCall_some_iff _ _ _).1 hanc
      cases no with
      | ok norm_str =>
        refine ⟨?_, ?_, ?_, hded, ?_, ?_, ?_, ?_⟩
        · constructor
          · intro _
            exact ⟨r, rfl, hne, hb⟩
          · intro _
            exact ⟨nargs, by simp [executorToolCall, hallow, hanc]⟩
        · simp [executorToolCall, hallow, hanc]
        · intro rs na h hmem
          injection h with hr
          subst hr
          simp [executorToolCall, hallow, hanc] at hmem
          rw [hmem]
          exact hnargs
        · intro rs ns h _ _ _
          injection h with hr
          subst hr
          constructor <;> simp [executorToolCall, hallow, hanc]
        · intro rs h hor
          injection h with hr
          subst hr
          rcases hor with h2 | h2
          · exact absurd h2 hne
          · have h2' : hasN = false := h2
            rw [hb] at h2'
            exact absurd h2' (by decide)
        · intro rs e' _ h2
          exact absurd h2 (by simp)
        · intro e' h
          exact absurd h (by simp)
      | error e0 =>
        refine ⟨?_, ?_, ?_, hded, ?_, ?_, ?_, ?_⟩
        · constructor
          · intro _
            exact ⟨r, rfl, hne, hb⟩
          · intro _
            exact ⟨nargs, by simp [executorToolCall, hallow, hanc]⟩
        · simp [executorToolCall, hallow, hanc]
        · intro rs na h hmem
          injection h with hr
          subst hr
          simp [executorToolCall, hallow, hanc] at hmem
          rw [hmem]
          exact hnargs
        · intro rs ns _ h2 _ _
          exact absurd h2 (by simp)
        · intro rs h hor
          injection h with hr
          subst hr
          rcases hor with h2 | h2
          · exact absurd h2 hne
          · have h2' : hasN = false := h2
            rw [hb] at h2'
            exact absurd h2' (by decide)
        · intro rs e' h _
          injection h with hr
          subst hr
          constructor <;> simp [executorToolCall, hallow, hanc]
        · intro e' h
          exact absurd h (by simp)

/-- C4 witness: a resolution result containing MONDO:0005148 and
CHEBI:6801 with the normalizer bound triggers exactly one
normalization call and two records/steps; the same lookup with a
failing normalization invocation yields a single record and step; a
failing lookup yields a single record and never fires. -/
def c4whc : HardConstraintsD :=
  { forbidden_predicates := [], forbidden_entities := [],
    forbidden_continuations := [] }

def c4wenv : ExecEnv :=
  { hasNormalizer := true,
    invokeOutcome := Except.ok "Found MONDO:0005148 and CHEBI:6801",
    normOutcome := Except.ok "both normalized" }

def c4fenv : ExecEnv :=
  { hasNormalizer := true,
    invokeOutcome := Except.ok "Found MONDO:0005148 and CHEBI:6801",
    normOutcome := Except.error "TimeoutError: normalizer timed out" }

def c4eenv : ExecEnv :=
  { hasNormalizer := true,
    invokeOutcome := Except.error "TimeoutError: lookup timed out",
    normOutcome := Except.ok "unreached" }

theorem C4_auto_followup_witness :
    (∃ nargs, ("get_normalized_nodes", nargs) ∈
      (executorToolCall c4whc c4wenv "resolve" "lookup"
        []).providerCalls) ∧
    (executorToolCall c4whc c4wenv "resolve" "lookup"
      []).evidence.length = 2 ∧
    (executorToolCall c4whc c4wenv "resolve" "lookup"
      []).past_steps.length = 2 ∧
    (executorToolCall c4whc c4fenv "resolve" "lookup"
      []).evidence.length = 1 ∧
    (executorToolCall c4whc c4fenv "resolve" "lookup"
      []).past_steps.length = 1 ∧
    (executorToolCall c4whc c4eenv "resolve" "lookup"
      []).providerCalls = [("lookup", [])] :=
  ⟨((C4_auto_followup c4whc c4wenv "resolve" [] rfl).1).2
     ⟨"Found MONDO:0005148 and CHEBI:6801", rfl, by decide, rfl⟩,
   ((C4_auto_followup c4whc c4wenv "resolve" [] rfl).2.2.2.2.1
     "Found MONDO:0005148 and CHEBI:6801" "both normalized"
     rfl rfl (by decide) rfl).1,
   ((C4_auto_followup c4whc c4wenv "resolve" [] rfl).2.2.2.2.1
     "Found MONDO:0005148 and CHEBI:6801" "both normalized"
     rfl rfl (by decide) rfl).2,
   ((C4_auto_followup c4whc c4fenv "resolve" [] rfl).2.2.2.2.2.2.1
     "Found MONDO:0005148 and CHEBI:6801"
     "TimeoutError: normalizer timed out" rfl rfl).1,
   ((C4_auto_followup c4whc c4fenv "resolve" [] rfl).2.2.2.2.2.2.1
     "Found MONDO:0005148 and CHEBI:6801"
     "TimeoutError: normalizer timed out" rfl rfl).2,
   ((C4_auto_followup c4whc c4eenv "resolve" [] rfl).2.2.2.2.2.2.2
     "TimeoutError: lookup timed out" rfl).2.2⟩
